import Mathlib

/-!
Verification of the deployment state machine in `syntho-cli`
(`src/cli/k8s_deployment.py`).

The Python module is shallowly embedded: pure helpers become Lean
functions; filesystem / subprocess effects are made explicit through a
`World` record (state file content, set of existing deployment working
directories, a ghost log of executed scripts) and an `Oracle` describing
the behaviour of the external provisioning scripts.  Python exceptions
that can escape a function are modelled with `Except PyErr`.
-/

namespace K8s

/-! ## MD5 (the digest used by `generate_deployment_id`)

A direct implementation of RFC 1321 over byte lists, with 32-bit
arithmetic carried out on `Nat` modulo `2 ^ 32`. -/

namespace MD5

def m32 : Nat := 4294967296

/-- Per-round left-rotation amounts. -/
def sTable : List Nat :=
  [7, 12, 17, 22, 7, 12, 17, 22, 7, 12, 17, 22, 7, 12, 17, 22,
   5, 9, 14, 20, 5, 9, 14, 20, 5, 9, 14, 20, 5, 9, 14, 20,
   4, 11, 16, 23, 4, 11, 16, 23, 4, 11, 16, 23, 4, 11, 16, 23,
   6, 10, 15, 21, 6, 10, 15, 21, 6, 10, 15, 21, 6, 10, 15, 21]

/-- Binary integer parts of the sines of successive integers. -/
def kTable : List Nat :=
  [0xd76aa478, 0xe8c7b756, 0x242070db, 0xc1bdceee,
   0xf57c0faf, 0x4787c62a, 0xa8304613, 0xfd469501,
   0x698098d8, 0x8b44f7af, 0xffff5bb1, 0x895cd7be,
   0x6b901122, 0xfd987193, 0xa679438e, 0x49b40821,
   0xf61e2562, 0xc040b340, 0x265e5a51, 0xe9b6c7aa,
   0xd62f105d, 0x02441453, 0xd8a1e681, 0xe7d3fbc8,
   0x21e1cde6, 0xc33707d6, 0xf4d50d87, 0x455a14ed,
   0xa9e3e905, 0xfcefa3f8, 0x676f02d9, 0x8d2a4c8a,
   0xfffa3942, 0x8771f681, 0x6d9d6122, 0xfde5380c,
   0xa4beea44, 0x4bdecfa9, 0xf6bb4b60, 0xbebfbc70,
   0x289b7ec6, 0xeaa127fa, 0xd4ef3085, 0x04881d05,
   0xd9d4d039, 0xe6db99e5, 0x1fa27cf8, 0xc4ac5665,
   0xf4292244, 0x432aff97, 0xab9423a7, 0xfc93a039,
   0x655b59c3, 0x8f0ccc92, 0xffeff47d, 0x85845dd1,
   0x6fa87e4f, 0xfe2ce6e0, 0xa3014314, 0x4e0811a1,
   0xf7537e82, 0xbd3af235, 0x2ad7d2bb, 0xeb86d391]

def rotl32 (x n : Nat) : Nat :=
  ((x <<< n) ||| (x >>> (32 - n))) % m32

def compl32 (x : Nat) : Nat := x ^^^ 0xffffffff

/-- Bytes of the padded message: the original bytes, `0x80`, zeros up to
56 mod 64, then the bit length as eight little-endian bytes. -/
def pad (msg : List Nat) : List Nat :=
  let len := msg.length
  let zeros := (119 - len % 64) % 64
  let bitLen := (len * 8) % (2 ^ 64)
  msg ++ [0x80] ++ List.replicate zeros 0 ++
    ((List.range 8).map (fun i => (bitLen >>> (8 * i)) % 256))

/-- First 16 little-endian 32-bit words of a byte list. -/
def chunkWords (bytes : List Nat) : List Nat :=
  (List.range 16).map (fun j =>
    bytes.getD (4 * j) 0 + bytes.getD (4 * j + 1) 0 * 256 +
    bytes.getD (4 * j + 2) 0 * 65536 + bytes.getD (4 * j + 3) 0 * 16777216)

/-- Split `n` 64-byte blocks off a byte list, as 16-word lists. -/
def toChunksAux : Nat → List Nat → List (List Nat)
  | 0, _ => []
  | n + 1, bytes => chunkWords bytes :: toChunksAux n (bytes.drop 64)

/-- Split a byte list into 16-entry lists of little-endian 32-bit words
(the input length is a multiple of 64). -/
def toChunks (bytes : List Nat) : List (List Nat) :=
  toChunksAux (bytes.length / 64) bytes

/-- One of the 64 mixing steps on the running state `(a, b, c, d)`. -/
def step (M : List Nat) (st : Nat × Nat × Nat × Nat) (i : Nat) :
    Nat × Nat × Nat × Nat :=
  let (a, b, c, d) := st
  let fg : Nat × Nat :=
    if i < 16 then ((b &&& c) ||| (compl32 b &&& d), i)
    else if i < 32 then ((d &&& b) ||| (compl32 d &&& c), (5 * i + 1) % 16)
    else if i < 48 then (b ^^^ c ^^^ d, (3 * i + 5) % 16)
    else (c ^^^ (b ||| compl32 d), (7 * i) % 16)
  let f := (fg.1 + a + kTable.getD i 0 + M.getD fg.2 0) % m32
  (d, (b + rotl32 f (sTable.getD i 0)) % m32, b, c)

/-- Process one 16-word chunk, then add the result into the state. -/
def processChunk (st : Nat × Nat × Nat × Nat) (M : List Nat) :
    Nat × Nat × Nat × Nat :=
  let (a0, b0, c0, d0) := st
  let (a, b, c, d) := (List.range 64).foldl (step M) st
  ((a0 + a) % m32, (b0 + b) % m32, (c0 + c) % m32, (d0 + d) % m32)

def byteToHex (b : Nat) : String :=
  let digits := "0123456789abcdef".toList
  String.mk [digits.getD (b / 16) '0', digits.getD (b % 16) '0']

def wordToHex (w : Nat) : String :=
  byteToHex (w % 256) ++ byteToHex ((w >>> 8) % 256) ++
  byteToHex ((w >>> 16) % 256) ++ byteToHex ((w >>> 24) % 256)

/-- MD5 digest of a byte list, as a 32-character lowercase hex string. -/
def md5Bytes (msg : List Nat) : String :=
  let init : Nat × Nat × Nat × Nat :=
    (0x67452301, 0xefcdab89, 0x98badcfe, 0x10325476)
  let (a, b, c, d) := (toChunks (pad msg)).foldl processChunk init
  wordToHex a ++ wordToHex b ++ wordToHex c ++ wordToHex d

/-- UTF-8 encoding of one character (Python's `str.encode`). -/
def encodeChar (c : Char) : List Nat :=
  let n := c.toNat
  if n < 0x80 then [n]
  else if n < 0x800 then
    [0xc0 ||| (n >>> 6), 0x80 ||| (n &&& 0x3f)]
  else if n < 0x10000 then
    [0xe0 ||| (n >>> 12), 0x80 ||| ((n >>> 6) &&& 0x3f), 0x80 ||| (n &&& 0x3f)]
  else
    [0xf0 ||| (n >>> 18), 0x80 ||| ((n >>> 12) &&& 0x3f),
     0x80 ||| ((n >>> 6) &&& 0x3f), 0x80 ||| (n &&& 0x3f)]

def strBytes (s : String) : List Nat :=
  s.data.foldr (fun c acc => encodeChar c ++ acc) []

/-- `md5(s.encode()).hexdigest()`. -/
def md5hex (s : String) : String := md5Bytes (strBytes s)

end MD5

/-! ## Data model (`CleanUpLevel`, `DeploymentStatus`, records, state file) -/

/-- `class CleanUpLevel(Enum)`. -/
inductive CleanUpLevel
  | FULL
  | DIR
  | NA
  deriving DecidableEq, Repr

/-- `class DeploymentStatus(Enum)`: the stage labels, in declaration
order. -/
inductive DeploymentStatus
  | INITIALIZING
  | PREPARING_ENV
  | INITIALIZED
  | PRE_REQ_CHECK_IN_PROGRESS
  | PRE_REQ_CHECK_SUCCEEDED
  | PRE_REQ_CHECK_FAILED
  | PRE_DEPLOYMENT_OPERATIONS_IN_PROGRESS
  | PRE_DEPLOYMENT_OPERATIONS_SUCCEEDED
  | PRE_DEPLOYMENT_OPERATIONS_FAILED
  | RAY_CLUSTER_DEPLOYMENT_IN_PROGRESS
  | RAY_CLUSTER_DEPLOYMENT_SUCCEEDED
  | RAY_CLUSTER_DEPLOYMENT_FAILED
  | SYNTHO_UI_DEPLOYMENT_IN_PROGRESS
  | SYNTHO_UI_DEPLOYMENT_SUCCEEDED
  | SYNTHO_UI_DEPLOYMENT_FAILED
  | COMPLETED
  deriving DecidableEq, Repr

namespace DeploymentStatus

/-- `DeploymentStatus.get`: the first component of the enum value. -/
def get : DeploymentStatus → String
  | INITIALIZING => "initializing"
  | PREPARING_ENV => "preparing-env"
  | INITIALIZED => "initialized"
  | PRE_REQ_CHECK_IN_PROGRESS => "pre-req-check-in-progress"
  | PRE_REQ_CHECK_SUCCEEDED => "pre-req-check-succeeded"
  | PRE_REQ_CHECK_FAILED => "pre-req-check-failed"
  | PRE_DEPLOYMENT_OPERATIONS_IN_PROGRESS => "pre-deployment-operations-in-progress"
  | PRE_DEPLOYMENT_OPERATIONS_SUCCEEDED => "pre-deployment-operations-succeeded"
  | PRE_DEPLOYMENT_OPERATIONS_FAILED => "pre-deployment-operations-failed"
  | RAY_CLUSTER_DEPLOYMENT_IN_PROGRESS => "ray-cluster-deployment-in-progress"
  | RAY_CLUSTER_DEPLOYMENT_SUCCEEDED => "ray-cluster-deployment-succeeded"
  | RAY_CLUSTER_DEPLOYMENT_FAILED => "ray-cluster-deployment-failed"
  | SYNTHO_UI_DEPLOYMENT_IN_PROGRESS => "syntho-ui-deployment-in-progress"
  | SYNTHO_UI_DEPLOYMENT_SUCCEEDED => "syntho-ui-deployment-succeeded"
  | SYNTHO_UI_DEPLOYMENT_FAILED => "syntho-ui-deployment-failed"
  | COMPLETED => "completed"

/-- `DeploymentStatus.cleanup_level`: the second component of the enum
value. -/
def cleanup_level : DeploymentStatus → CleanUpLevel
  | INITIALIZING => .DIR
  | PREPARING_ENV => .DIR
  | INITIALIZED => .DIR
  | PRE_REQ_CHECK_IN_PROGRESS => .DIR
  | PRE_REQ_CHECK_SUCCEEDED => .DIR
  | PRE_REQ_CHECK_FAILED => .DIR
  | PRE_DEPLOYMENT_OPERATIONS_IN_PROGRESS => .FULL
  | PRE_DEPLOYMENT_OPERATIONS_SUCCEEDED => .FULL
  | PRE_DEPLOYMENT_OPERATIONS_FAILED => .FULL
  | RAY_CLUSTER_DEPLOYMENT_IN_PROGRESS => .FULL
  | RAY_CLUSTER_DEPLOYMENT_SUCCEEDED => .FULL
  | RAY_CLUSTER_DEPLOYMENT_FAILED => .FULL
  | SYNTHO_UI_DEPLOYMENT_IN_PROGRESS => .FULL
  | SYNTHO_UI_DEPLOYMENT_SUCCEEDED => .FULL
  | SYNTHO_UI_DEPLOYMENT_FAILED => .FULL
  | COMPLETED => .NA

/-- The members of the enum in declaration order (the iteration order of
`for deployment_status in DeploymentStatus`). -/
def all : List DeploymentStatus :=
  [INITIALIZING, PREPARING_ENV, INITIALIZED,
   PRE_REQ_CHECK_IN_PROGRESS, PRE_REQ_CHECK_SUCCEEDED, PRE_REQ_CHECK_FAILED,
   PRE_DEPLOYMENT_OPERATIONS_IN_PROGRESS, PRE_DEPLOYMENT_OPERATIONS_SUCCEEDED,
   PRE_DEPLOYMENT_OPERATIONS_FAILED,
   RAY_CLUSTER_DEPLOYMENT_IN_PROGRESS, RAY_CLUSTER_DEPLOYMENT_SUCCEEDED,
   RAY_CLUSTER_DEPLOYMENT_FAILED,
   SYNTHO_UI_DEPLOYMENT_IN_PROGRESS, SYNTHO_UI_DEPLOYMENT_SUCCEEDED,
   SYNTHO_UI_DEPLOYMENT_FAILED, COMPLETED]

end DeploymentStatus

/-- One entry of the `deployments` sequence, as built by
`initialize_deployment` (a YAML mapping in the original). -/
structure Deployment where
  id : String
  status : String
  version : String
  started_at : String
  finished_at : Option String
  cluster_name : Option String
  deriving DecidableEq, Repr

/-- The `k8s-deployment-state.yaml` document. -/
structure DeploymentsState where
  active_deployment_id : Option String
  deployments : List Deployment
  deriving DecidableEq, Repr

/-- Content found at the state-file path: either a document that
`yaml.safe_load` parses to a well-formed state, or text it cannot parse
(on which `yaml.safe_load` raises). -/
inductive StateContent
  | parsed (s : DeploymentsState)
  | malformed
  deriving DecidableEq, Repr

/-- Python exceptions that can escape the embedded functions. -/
inductive PyErr
  | yamlError
  | indexError
  | fileExistsError
  | nameError
  deriving DecidableEq, Repr

/-- `SubprocessResult` namedtuple.  `output` is `none` where the
original holds Python `None`. -/
structure SubprocessResult where
  succeeded : Bool
  output : Option String
  exitcode : Int
  deriving DecidableEq, Repr

/-- `DeploymentResult` namedtuple. -/
structure DeploymentResult where
  succeeded : Bool
  deployment_id : String
  error : Option String
  deployment_status : DeploymentStatus
  deriving DecidableEq, Repr

/-- What happens inside `subprocess.run` for one script invocation:
the child exits with a code (having produced the given stdout/stderr
text), the blocking wait is interrupted by the operator, or the spawn
or wait itself raises some other exception (missing script file,
permission error, ...). -/
inductive RunEvent
  | exit (code : Int) (stdout stderr : String)
  | interrupt
  | exn (msg : String)
  deriving DecidableEq, Repr

/-- Behaviour of the external scripts, keyed by script name. -/
structure Oracle where
  run : String → RunEvent

/-- The modelled slice of the machine: the state-file content, the set
of existing per-deployment working directories (named by deployment
id), the `os.path.isfile` view used for the kubeconfig argument, and a
ghost log of the scripts executed (in order). -/
structure World where
  stateFile : Option StateContent
  dirs : List String
  isfile : String → Bool
  log : List String

/-! ## Script Runner -/

/-- `run_script`: run the named script via `subprocess.run([script_path],
check=True, ...)` and classify the outcome.  `check=True` turns a
non-zero exit into `CalledProcessError`, whose `stderr` attribute is the
captured text when `capture_output=True` and Python `None` otherwise;
`KeyboardInterrupt` and every other exception are converted into a
failed result with exit code 1. -/
def run_script (ev : RunEvent) (capture_output : Bool) : SubprocessResult :=
  match ev with
  | .exit code stdout stderr =>
    if code == 0 then
      let res_stdout : Option String := if capture_output then some stdout else none
      { succeeded := true
        output := some (match res_stdout with
                        | some s => if s == "" then "" else s.trim
                        | none => "")
        exitcode := code }
    else
      { succeeded := false
        output := if capture_output then some stderr else none
        exitcode := code }
  | .interrupt => { succeeded := false, output := some "", exitcode := 1 }
  | .exn _ => { succeeded := false, output := some "", exitcode := 1 }

/-- A `run_script` call site: consult the oracle for the script's
behaviour and record the execution in the ghost log. -/
def invoke_script (o : Oracle) (script_name : String) (capture_output : Bool)
    (w : World) : SubprocessResult × World :=
  (run_script (o.run script_name) capture_output,
   { w with log := w.log ++ [script_name] })

/-! ## Identity Generator -/

/-- `generate_deployment_id`.  When `os.path.isfile(kubeconfig)` holds,
the source executes `with open(file_path, "r")` — but no name
`file_path` is in scope there, so the call raises `NameError` before
reading anything.  Otherwise the argument string itself is hashed. -/
def generate_deployment_id (isfile : String → Bool) (kubeconfig : String) :
    Except PyErr String :=
  if isfile kubeconfig then .error .nameError
  else .ok (MD5.md5hex kubeconfig)

/-! ## State Store -/

/-- `get_deployments_state`: a missing file yields the empty state; an
existing file is handed to `yaml.safe_load`, whose parse error on
malformed text propagates to the caller uncaught. -/
def get_deployments_state (c : Option StateContent) :
    Except PyErr DeploymentsState :=
  match c with
  | none => .ok { active_deployment_id := none, deployments := [] }
  | some (.parsed s) => .ok s
  | some .malformed => .error .yamlError

/-- `update_deployments_state`: full rewrite of the state file. -/
def update_deployments_state (s : DeploymentsState) (w : World) : World :=
  { w with stateFile := some (.parsed s) }

/-- The `for deployment_status in DeploymentStatus` lookup at the end of
`get_deployment_status`: first member whose label equals the stored
string, else Python `None`. -/
def statusFromString (s : String) : Option DeploymentStatus :=
  DeploymentStatus.all.find? (fun ds => ds.get == s)

/-- `get_deployment_status`: `None` when the working directory does not
exist; otherwise read the state file and take `filtered[0]` (an
`IndexError` when no record matches). -/
def get_deployment_status (w : World) (deployment_id : String) :
    Except PyErr (Option DeploymentStatus) :=
  if !(w.dirs.contains deployment_id) then .ok none
  else
    match get_deployments_state w.stateFile with
    | .error e => .error e
    | .ok s =>
      match s.deployments.filter (fun d => d.id == deployment_id) with
      | [] => .error .indexError
      | d :: _ => .ok (statusFromString d.status)

/-- The in-place mutation `set_state` applies to one matching record. -/
def upd_status (status : DeploymentStatus) (now : String) (is_completed : Bool)
    (d : Deployment) : Deployment :=
  { d with status := status.get
           finished_at := if is_completed then some now else d.finished_at }

/-- The state-file transformation performed by `set_state`: every record
whose id matches gets the new status (and, on completion, the
`finished_at` timestamp). -/
def set_state_core (deployment_id : String) (status : DeploymentStatus)
    (now : String) (is_completed : Bool) (s : DeploymentsState) :
    DeploymentsState :=
  { s with deployments := s.deployments.map (fun d =>
      if d.id == deployment_id then upd_status status now is_completed d else d) }

/-- `set_state`: read-modify-write of the state file. -/
def set_state (deployment_id : String) (status : DeploymentStatus)
    (is_completed : Bool) (now : String) (w : World) : Except PyErr World :=
  match get_deployments_state w.stateFile with
  | .error e => .error e
  | .ok s =>
    .ok (update_deployments_state
          (set_state_core deployment_id status now is_completed s) w)

/-- The record `initialize_deployment` appends. -/
def init_record (deployment_id version now : String) : Deployment :=
  { id := deployment_id
    status := DeploymentStatus.INITIALIZING.get
    version := version
    started_at := now
    finished_at := none
    cluster_name := none }

/-- The state-file transformation performed by `initialize_deployment`:
append the fresh record and point `active_deployment_id` at it. -/
def init_core (deployment_id version now : String) (s : DeploymentsState) :
    DeploymentsState :=
  { active_deployment_id := some deployment_id
    deployments := s.deployments ++ [init_record deployment_id version now] }

/-- `initialize_deployment` (source symbol of the same name): read the
state, create the working directory (`os.makedirs` raises when it
already exists), append the record and persist. -/
def init_deployment (deployment_id version now : String) (w : World) :
    Except PyErr World :=
  match get_deployments_state w.stateFile with
  | .error e => .error e
  | .ok s =>
    if w.dirs.contains deployment_id then .error .fileExistsError
    else
      .ok (update_deployments_state (init_core deployment_id version now s)
            { w with dirs := w.dirs ++ [deployment_id] })

/-- `prepare_env`: writes connection material and the `.env` file into
the working directory (files outside the modelled state) bracketed by
two `set_state` calls. -/
def prepare_env (deployment_id now : String) (w : World) : Except PyErr World :=
  match set_state deployment_id .PREPARING_ENV false now w with
  | .error e => .error e
  | .ok w => set_state deployment_id .INITIALIZED false now w

/-! ## Orchestrator stages -/

/-- `pre_requirements_check`: in-progress status, run the script, then
the succeeded/failed status. -/
def pre_requirements_check (o : Oracle) (deployment_id now : String)
    (w : World) : Except PyErr (Bool × World) :=
  match set_state deployment_id .PRE_REQ_CHECK_IN_PROGRESS false now w with
  | .error e => .error e
  | .ok w =>
    let (result, w) := invoke_script o "pre-requirements-kubernetes.sh" false w
    match (if result.succeeded then
             set_state deployment_id .PRE_REQ_CHECK_SUCCEEDED false now w
           else
             set_state deployment_id .PRE_REQ_CHECK_FAILED false now w) with
    | .error e => .error e
    | .ok w => .ok (result.succeeded, w)

/-- The state-file transformation performed by `set_cluster_name`. -/
def set_cluster_core (deployment_id : String) (out : Option String)
    (s : DeploymentsState) : DeploymentsState :=
  { s with deployments := s.deployments.map (fun d =>
      if d.id == deployment_id then { d with cluster_name := out } else d) }

/-- `set_cluster_name`: run the lookup script with captured output and
store `result.output` in the record, regardless of success. -/
def set_cluster_name (o : Oracle) (deployment_id : String) (w : World) :
    Except PyErr World :=
  let (result, w) := invoke_script o "get-k8s-cluster-context-name.sh" true w
  match get_deployments_state w.stateFile with
  | .error e => .error e
  | .ok s =>
    .ok (update_deployments_state (set_cluster_core deployment_id result.output s) w)

/-- `configuration_questions`: in-progress status, run the script, and a
failed status only on failure. -/
def configuration_questions (o : Oracle) (deployment_id now : String)
    (w : World) : Except PyErr (Bool × World) :=
  match set_state deployment_id .PRE_DEPLOYMENT_OPERATIONS_IN_PROGRESS false now w with
  | .error e => .error e
  | .ok w =>
    let (result, w) := invoke_script o "configuration-questions.sh" false w
    match (if result.succeeded then .ok w
           else
             set_state deployment_id .PRE_DEPLOYMENT_OPERATIONS_FAILED false now w) with
    | .error e => .error e
    | .ok w => .ok (result.succeeded, w)

/-- `download_syntho_charts_release`: same shape as the configuration
step, for the release-download script. -/
def download_syntho_charts_release (o : Oracle) (deployment_id now : String)
    (w : World) : Except PyErr (Bool × World) :=
  match set_state deployment_id .PRE_DEPLOYMENT_OPERATIONS_IN_PROGRESS false now w with
  | .error e => .error e
  | .ok w =>
    let (result, w) := invoke_script o "download-syntho-charts-release.sh" false w
    match (if result.succeeded then .ok w
           else
             set_state deployment_id .PRE_DEPLOYMENT_OPERATIONS_FAILED false now w) with
    | .error e => .error e
    | .ok w => .ok (result.succeeded, w)

/-- `major_predeployment_operations`: same shape, for the major
pre-deployment script. -/
def major_predeployment_operations (o : Oracle) (deployment_id now : String)
    (w : World) : Except PyErr (Bool × World) :=
  match set_state deployment_id .PRE_DEPLOYMENT_OPERATIONS_IN_PROGRESS false now w with
  | .error e => .error e
  | .ok w =>
    let (result, w) := invoke_script o "major-pre-deployment-operations.sh" false w
    match (if result.succeeded then .ok w
           else
             set_state deployment_id .PRE_DEPLOYMENT_OPERATIONS_FAILED false now w) with
    | .error e => .error e
    | .ok w => .ok (result.succeeded, w)

/-- `start_deployment`: in-progress status, run the final stack script,
then the succeeded/failed status. -/
def start_deployment (o : Oracle) (deployment_id now : String) (w : World) :
    Except PyErr (Bool × World) :=
  match set_state deployment_id .SYNTHO_UI_DEPLOYMENT_IN_PROGRESS false now w with
  | .error e => .error e
  | .ok w =>
    let (result, w) := invoke_script o "deploy-ray-and-syntho-stack.sh" false w
    match (if result.succeeded then
             set_state deployment_id .SYNTHO_UI_DEPLOYMENT_SUCCEEDED false now w
           else
             set_state deployment_id .SYNTHO_UI_DEPLOYMENT_FAILED false now w) with
    | .error e => .error e
    | .ok w => .ok (result.succeeded, w)

/-- `start`: compute the identity, short-circuit on an existing record,
otherwise drive the stage sequence, persisting a status around every
step and stopping at the first failure. -/
def start (o : Oracle) (now version kubeconfig : String) (w : World) :
    Except PyErr (DeploymentResult × World) :=
  match generate_deployment_id w.isfile kubeconfig with
  | .error e => .error e
  | .ok deployment_id =>
    match get_deployment_status w deployment_id with
    | .error e => .error e
    | .ok (some deployment_status) =>
      if deployment_status.get == DeploymentStatus.COMPLETED.get then
        .ok ({ succeeded := true, deployment_id := deployment_id, error := none,
               deployment_status := deployment_status }, w)
      else
        .ok ({ succeeded := false, deployment_id := deployment_id,
               error := some "Deployment remained unfinished",
               deployment_status := deployment_status }, w)
    | .ok none =>
      match init_deployment deployment_id version now w with
      | .error e => .error e
      | .ok w =>
        match prepare_env deployment_id now w with
        | .error e => .error e
        | .ok w =>
          match pre_requirements_check o deployment_id now w with
          | .error e => .error e
          | .ok (succeeded, w) =>
            if !succeeded then
              .ok ({ succeeded := false, deployment_id := deployment_id,
                     error := some "Pre requirements check failed",
                     deployment_status := .PRE_REQ_CHECK_FAILED }, w)
            else
              match set_cluster_name o deployment_id w with
              | .error e => .error e
              | .ok w =>
                match configuration_questions o deployment_id now w with
                | .error e => .error e
                | .ok (succeeded, w) =>
                  if !succeeded then
                    .ok ({ succeeded := false, deployment_id := deployment_id,
                           error := some "Pre deployment operations failed - Configuration",
                           deployment_status := .PRE_DEPLOYMENT_OPERATIONS_FAILED }, w)
                  else
                    match download_syntho_charts_release o deployment_id now w with
                    | .error e => .error e
                    | .ok (succeeded, w) =>
                      if !succeeded then
                        .ok ({ succeeded := false, deployment_id := deployment_id,
                               error := some "Pre deployment operations failed - Downloading syntho-charts release",
                               deployment_status := .PRE_DEPLOYMENT_OPERATIONS_FAILED }, w)
                      else
                        match major_predeployment_operations o deployment_id now w with
                        | .error e => .error e
                        | .ok (succeeded, w) =>
                          if !succeeded then
                            .ok ({ succeeded := false, deployment_id := deployment_id,
                                   error := some "Pre deployment operations failed - Setting up major pre-deployment components",
                                   deployment_status := .PRE_DEPLOYMENT_OPERATIONS_FAILED }, w)
                          else
                            match start_deployment o deployment_id now w with
                            | .error e => .error e
                            | .ok (succeeded, w) =>
                              if !succeeded then
                                .ok ({ succeeded := false, deployment_id := deployment_id,
                                       error := some "Syntho UI deployment failed",
                                       deployment_status := .SYNTHO_UI_DEPLOYMENT_FAILED }, w)
                              else
                                match set_state deployment_id .COMPLETED true now w with
                                | .error e => .error e
                                | .ok w =>
                                  .ok ({ succeeded := true,
                                         deployment_id := deployment_id,
                                         error := none,
                                         deployment_status := .COMPLETED }, w)

/-! ## Cleanup Engine -/

/-- The tail of `cleanup_with_cleanup_level` after a (needed) external
teardown has succeeded: `shutil.rmtree` on the working directory, drop
the record from the sequence, recompute `active_deployment_id` as the
last remaining record's id (or `None`), persist, return `True`. -/
def cleanup_kept (deployment_id : String) (s : DeploymentsState) :
    List Deployment :=
  s.deployments.filter (fun d => !(d.id == deployment_id))

def cleanup_active (deployment_id : String) (s : DeploymentsState) :
    Option String :=
  match (cleanup_kept deployment_id s).getLast? with
  | some d => some d.id
  | none => none

def cleanup_finish (deployment_id : String) (w : World) :
    Except PyErr (Option Bool × World) :=
  let w := { w with dirs := w.dirs.filter (fun d => !(d == deployment_id)) }
  match get_deployments_state w.stateFile with
  | .error e => .error e
  | .ok s =>
    .ok (some true,
         update_deployments_state
           { active_deployment_id := cleanup_active deployment_id s,
             deployments := cleanup_kept deployment_id s } w)

/-- `cleanup_with_cleanup_level`.  The early `return` statements hand
back Python `None` (modelled `none`); the explicit returns are `False`
and `True`. -/
def cleanup_with_cleanup_level (o : Oracle) (deployment_id : String)
    (cleanup_level : CleanUpLevel) (w : World) :
    Except PyErr (Option Bool × World) :=
  if cleanup_level == .NA then .ok (none, w)
  else if !(w.dirs.contains deployment_id) then .ok (none, w)
  else if cleanup_level == .FULL then
    let (result, w) := invoke_script o "cleanup-kubernetes.sh" false w
    if !result.succeeded then .ok (some false, w)
    else cleanup_finish deployment_id w
  else cleanup_finish deployment_id w

/-- `cleanup`: look the level up from the stage label and delegate. -/
def cleanup (o : Oracle) (deployment_id : String) (status : DeploymentStatus)
    (w : World) : Except PyErr World :=
  match cleanup_with_cleanup_level o deployment_id status.cleanup_level w with
  | .error e => .error e
  | .ok (_, w) => .ok w

/-- `destroy`: no-op (with a message) when the working directory is
missing, else a FULL-level cleanup. -/
def destroy (o : Oracle) (deployment_id : String) (w : World) :
    Except PyErr World :=
  if !(w.dirs.contains deployment_id) then .ok w
  else
    match cleanup_with_cleanup_level o deployment_id .FULL w with
    | .error e => .error e
    | .ok (_, w) => .ok w

/-! ## Observers used by the statements -/

/-- The status recorded in the state file for an identity: the status
string of the first matching record, decoded through the enum lookup
(`None` when the file is unreadable or no record matches). -/
def persisted_status (w : World) (deployment_id : String) :
    Option DeploymentStatus :=
  match get_deployments_state w.stateFile with
  | .ok s =>
    match s.deployments.filter (fun d => d.id == deployment_id) with
    | [] => none
    | d :: _ => statusFromString d.status
  | .error _ => none

/-- The first state-file record for an identity, if any. -/
def persisted_record (w : World) (deployment_id : String) : Option Deployment :=
  match get_deployments_state w.stateFile with
  | .ok s => (s.deployments.filter (fun d => d.id == deployment_id)).head?
  | .error _ => none

/-- §3 invariant: `active_deployment_id`, when non-null, names a record
present in the sequence. -/
def state_inv (s : DeploymentsState) : Bool :=
  match s.active_deployment_id with
  | none => true
  | some i => s.deployments.any (fun d => d.id == i)

/-- The invariant read through the state file: every well-formed parsed
content satisfies `state_inv`. -/
def world_inv (w : World) : Prop :=
  ∀ s, w.stateFile = some (.parsed s) → state_inv s = true

/-! ## Concrete fixtures used by the witness statements -/

/-- A record of a finished deployment. -/
def recA : Deployment :=
  { id := "a", status := "completed", version := "1.0", started_at := "t0",
    finished_at := some "t1", cluster_name := some "c" }

/-- A record of a stalled deployment. -/
def recB : Deployment :=
  { id := "b", status := "pre-req-check-failed", version := "1.0",
    started_at := "t2", finished_at := none, cluster_name := none }

def sampleState : DeploymentsState :=
  { active_deployment_id := some "b", deployments := [recA, recB] }

/-- A machine with two deployments on disk and in the state file. -/
def wSample : World :=
  { stateFile := some (.parsed sampleState), dirs := ["a", "b"],
    isfile := fun _ => false, log := [] }

/-- A fresh machine: no state file, no working directories. -/
def wEmpty : World :=
  { stateFile := none, dirs := [], isfile := fun _ => false, log := [] }

/-- Scripts that all exit with code 1. -/
def oFail : Oracle := { run := fun _ => .exit 1 "" "boom" }

/-- Scripts that all exit with code 0. -/
def oOk : Oracle := { run := fun _ => .exit 0 "out" "" }

/-- Scripts that all exit with code 0 and empty output. -/
def oQuiet : Oracle := { run := fun _ => .exit 0 "" "" }

/-- The hash of the empty connection string (the identity `start`
computes for kubeconfig argument `""`). -/
def emptyId : String := "d41d8cd98f00b204e9800998ecf8427e"

/-- A machine holding a completed deployment for `emptyId`. -/
def wDone : World :=
  { stateFile := some (.parsed
      { active_deployment_id := some emptyId,
        deployments := [{ id := emptyId, status := "completed",
                          version := "1.0", started_at := "t0",
                          finished_at := some "t1", cluster_name := none }] }),
    dirs := [emptyId], isfile := fun _ => false, log := [] }

/-- The result both short-circuiting `start` calls on `wDone` return. -/
def rDone : DeploymentResult :=
  { succeeded := true, deployment_id := emptyId, error := none,
    deployment_status := DeploymentStatus.COMPLETED }

/-- The result of a fresh `start` on `wEmpty` whose pre-requirement
script fails. -/
def rPreReqFail : DeploymentResult :=
  { succeeded := false, deployment_id := emptyId,
    error := some "Pre requirements check failed",
    deployment_status := DeploymentStatus.PRE_REQ_CHECK_FAILED }

/-- The world that run leaves behind. -/
def wPreReqFail : World :=
  { stateFile := some (.parsed
      (set_state_core emptyId .PRE_REQ_CHECK_FAILED "t" false
        (set_state_core emptyId .PRE_REQ_CHECK_IN_PROGRESS "t" false
          (set_state_core emptyId .INITIALIZED "t" false
            (set_state_core emptyId .PREPARING_ENV "t" false
              (init_core emptyId "1.0" "t"
                { active_deployment_id := none, deployments := [] })))))),
    dirs := [emptyId], isfile := fun _ => false,
    log := ["pre-requirements-kubernetes.sh"] }

/-! ## Helper lemmas -/

/-- Decoding the label written by `set_state` recovers the member that
produced it: the enum labels are pairwise distinct. -/
theorem statusFromString_get (σ : DeploymentStatus) :
    statusFromString σ.get = some σ := by
  cases σ <;> rfl

/-- A member whose label is the `completed` label is `COMPLETED`. -/
theorem eq_COMPLETED_of_get {a : DeploymentStatus}
    (h : (a.get == DeploymentStatus.COMPLETED.get) = true) :
    a = DeploymentStatus.COMPLETED := by
  cases a <;> first
    | rfl
    | exact absurd h (by decide)

/-- Filtering by id commutes with mapping an id-preserving function. -/
theorem filter_map_pres (i : String) (f : Deployment → Deployment)
    (hf : ∀ d, (f d).id = d.id) (l : List Deployment) :
    (l.map f).filter (fun d => d.id == i)
      = (l.filter (fun d => d.id == i)).map f := by
  induction l with
  | nil => rfl
  | cons d t ih =>
    simp only [List.map_cons, List.filter_cons, hf d]
    cases h : (d.id == i) <;> simp [h, ih]

/-- The update applied by `set_state` preserves ids. -/
theorem set_state_upd_id (i : String) (σ : DeploymentStatus) (now : String)
    (ic : Bool) (d : Deployment) :
    ((fun d => if d.id == i then upd_status σ now ic d else d) d).id = d.id := by
  by_cases h : (d.id == i) = true <;> simp [h, upd_status]

/-- The update applied by `set_cluster_name` preserves ids. -/
theorem set_cluster_upd_id (i : String) (out : Option String) (d : Deployment) :
    ((fun d => if d.id == i then { d with cluster_name := out } else d) d).id
      = d.id := by
  by_cases h : (d.id == i) = true <;> simp [h]

/-- Effect of `set_state` on the records for the written id: each one
gets the new status (and timestamp policy) applied. -/
theorem set_state_core_filter (i : String) (σ : DeploymentStatus) (now : String)
    (ic : Bool) (s : DeploymentsState) :
    (set_state_core i σ now ic s).deployments.filter (fun d => d.id == i)
      = (s.deployments.filter (fun d => d.id == i)).map (upd_status σ now ic) := by
  unfold set_state_core
  rw [filter_map_pres i _ (set_state_upd_id i σ now ic)]
  exact List.map_congr_left (fun d hd => by
    have := (List.mem_filter.mp hd).2
    simp [this])

/-- Effect of `set_cluster_name` on the records for the written id. -/
theorem set_cluster_core_filter (i : String) (out : Option String)
    (s : DeploymentsState) :
    (set_cluster_core i out s).deployments.filter (fun d => d.id == i)
      = (s.deployments.filter (fun d => d.id == i)).map
          (fun d => { d with cluster_name := out }) := by
  unfold set_cluster_core
  rw [filter_map_pres i _ (set_cluster_upd_id i out)]
  exact List.map_congr_left (fun d hd => by
    have := (List.mem_filter.mp hd).2
    simp [this])

/-- Effect of `initialize`-style record creation on the records for the
new id: the fresh record is appended after any stale ones. -/
theorem init_core_filter (i v now : String) (s : DeploymentsState) :
    (init_core i v now s).deployments.filter (fun d => d.id == i)
      = s.deployments.filter (fun d => d.id == i) ++ [init_record i v now] := by
  simp [init_core, List.filter_append, init_record]

/-- `set_state` keeps the record set for the id non-empty. -/
theorem ne_nil_set_state (i : String) (σ : DeploymentStatus) (now : String)
    (ic : Bool) (s : DeploymentsState)
    (h : s.deployments.filter (fun d => d.id == i) ≠ []) :
    (set_state_core i σ now ic s).deployments.filter (fun d => d.id == i) ≠ [] := by
  rw [set_state_core_filter]
  simpa using h

/-- `set_cluster_name` keeps the record set for the id non-empty. -/
theorem ne_nil_set_cluster (i : String) (out : Option String)
    (s : DeploymentsState)
    (h : s.deployments.filter (fun d => d.id == i) ≠ []) :
    (set_cluster_core i out s).deployments.filter (fun d => d.id == i) ≠ [] := by
  rw [set_cluster_core_filter]
  simpa using h

/-- Record creation makes the record set for the id non-empty. -/
theorem ne_nil_init (i v now : String) (s : DeploymentsState) :
    (init_core i v now s).deployments.filter (fun d => d.id == i) ≠ [] := by
  rw [init_core_filter]
  simp

/-- After a world write whose outermost transformation is a `set_state`
with status `σ`, the persisted status for the id decodes to `σ`. -/
theorem persisted_status_final (w : World) (i : String) (σ : DeploymentStatus)
    (now : String) (ic : Bool) (s : DeploymentsState)
    (hw : w.stateFile = some (.parsed (set_state_core i σ now ic s)))
    (hne : s.deployments.filter (fun d => d.id == i) ≠ []) :
    persisted_status w i = some σ := by
  simp only [persisted_status, hw, get_deployments_state]
  rw [set_state_core_filter]
  cases hX : s.deployments.filter (fun d => d.id == i) with
  | nil => exact absurd hX hne
  | cons d t =>
    simpa [upd_status] using statusFromString_get σ

/-- `set_state` as a world equation over an explicit world record. -/
theorem set_state_eq (did : String) (σ : DeploymentStatus) (ic : Bool)
    (now : String) (s : DeploymentsState) (dd : List String)
    (ff : String → Bool) (lg : List String) :
    set_state did σ ic now ⟨some (.parsed s), dd, ff, lg⟩
      = .ok ⟨some (.parsed (set_state_core did σ now ic s)), dd, ff, lg⟩ := rfl

/-- `prepare_env` as a world equation: two successive status writes. -/
theorem prepare_env_eq (did now : String) (s : DeploymentsState)
    (dd : List String) (ff : String → Bool) (lg : List String) :
    prepare_env did now ⟨some (.parsed s), dd, ff, lg⟩
      = .ok ⟨some (.parsed
          (set_state_core did .INITIALIZED now false
            (set_state_core did .PREPARING_ENV now false s))), dd, ff, lg⟩ := rfl

/-- `pre_requirements_check` as a world equation. -/
theorem pre_req_eq (o : Oracle) (did now : String) (s : DeploymentsState)
    (dd : List String) (ff : String → Bool) (lg : List String) :
    pre_requirements_check o did now ⟨some (.parsed s), dd, ff, lg⟩
      = .ok ((run_script (o.run "pre-requirements-kubernetes.sh") false).succeeded,
          ⟨some (.parsed (set_state_core did
            (if (run_script (o.run "pre-requirements-kubernetes.sh") false).succeeded
             then .PRE_REQ_CHECK_SUCCEEDED else .PRE_REQ_CHECK_FAILED)
            now false
            (set_state_core did .PRE_REQ_CHECK_IN_PROGRESS now false s))),
           dd, ff, lg ++ ["pre-requirements-kubernetes.sh"]⟩) := by
  cases hb : (run_script (o.run "pre-requirements-kubernetes.sh") false).succeeded <;>
    simp [pre_requirements_check, set_state, get_deployments_state,
          update_deployments_state, invoke_script, hb]

/-- `set_cluster_name` as a world equation. -/
theorem set_cluster_eq (o : Oracle) (did : String) (s : DeploymentsState)
    (dd : List String) (ff : String → Bool) (lg : List String) :
    set_cluster_name o did ⟨some (.parsed s), dd, ff, lg⟩
      = .ok ⟨some (.parsed (set_cluster_core did
            (run_script (o.run "get-k8s-cluster-context-name.sh") true).output s)),
          dd, ff, lg ++ ["get-k8s-cluster-context-name.sh"]⟩ := rfl

/-- `configuration_questions` as a world equation: the failed status is
written only on failure. -/
theorem config_eq (o : Oracle) (did now : String) (s : DeploymentsState)
    (dd : List String) (ff : String → Bool) (lg : List String) :
    configuration_questions o did now ⟨some (.parsed s), dd, ff, lg⟩
      = .ok ((run_script (o.run "configuration-questions.sh") false).succeeded,
          ⟨some (.parsed
            (if (run_script (o.run "configuration-questions.sh") false).succeeded then
              set_state_core did .PRE_DEPLOYMENT_OPERATIONS_IN_PROGRESS now false s
            else
              set_state_core did .PRE_DEPLOYMENT_OPERATIONS_FAILED now false
                (set_state_core did .PRE_DEPLOYMENT_OPERATIONS_IN_PROGRESS now false s))),
           dd, ff, lg ++ ["configuration-questions.sh"]⟩) := by
  cases hb : (run_script (o.run "configuration-questions.sh") false).succeeded <;>
    simp [configuration_questions, set_state, get_deployments_state,
          update_deployments_state, invoke_script, hb]

/-- `download_syntho_charts_release` as a world equation. -/
theorem download_eq (o : Oracle) (did now : String) (s : DeploymentsState)
    (dd : List String) (ff : String → Bool) (lg : List String) :
    download_syntho_charts_release o did now ⟨some (.parsed s), dd, ff, lg⟩
      = .ok ((run_script (o.run "download-syntho-charts-release.sh") false).succeeded,
          ⟨some (.parsed
            (if (run_script (o.run "download-syntho-charts-release.sh") false).succeeded then
              set_state_core did .PRE_DEPLOYMENT_OPERATIONS_IN_PROGRESS now false s
            else
              set_state_core did .PRE_DEPLOYMENT_OPERATIONS_FAILED now false
                (set_state_core did .PRE_DEPLOYMENT_OPERATIONS_IN_PROGRESS now false s))),
           dd, ff, lg ++ ["download-syntho-charts-release.sh"]⟩) := by
  cases hb : (run_script (o.run "download-syntho-charts-release.sh") false).succeeded <;>
    simp [download_syntho_charts_release, set_state, get_deployments_state,
          update_deployments_state, invoke_script, hb]

/-- `major_predeployment_operations` as a world equation. -/
theorem major_eq (o : Oracle) (did now : String) (s : DeploymentsState)
    (dd : List String) (ff : String → Bool) (lg : List String) :
    major_predeployment_operations o did now ⟨some (.parsed s), dd, ff, lg⟩
      = .ok ((run_script (o.run "major-pre-deployment-operations.sh") false).succeeded,
          ⟨some (.parsed
            (if (run_script (o.run "major-pre-deployment-operations.sh") false).succeeded then
              set_state_core did .PRE_DEPLOYMENT_OPERATIONS_IN_PROGRESS now false s
            else
              set_state_core did .PRE_DEPLOYMENT_OPERATIONS_FAILED now false
                (set_state_core did .PRE_DEPLOYMENT_OPERATIONS_IN_PROGRESS now false s))),
           dd, ff, lg ++ ["major-pre-deployment-operations.sh"]⟩) := by
  cases hb : (run_script (o.run "major-pre-deployment-operations.sh") false).succeeded <;>
    simp [major_predeployment_operations, set_state, get_deployments_state,
          update_deployments_state, invoke_script, hb]

/-- `start_deployment` as a world equation. -/
theorem deploy_eq (o : Oracle) (did now : String) (s : DeploymentsState)
    (dd : List String) (ff : String → Bool) (lg : List String) :
    start_deployment o did now ⟨some (.parsed s), dd, ff, lg⟩
      = .ok ((run_script (o.run "deploy-ray-and-syntho-stack.sh") false).succeeded,
          ⟨some (.parsed (set_state_core did
            (if (run_script (o.run "deploy-ray-and-syntho-stack.sh") false).succeeded
             then .SYNTHO_UI_DEPLOYMENT_SUCCEEDED
             else .SYNTHO_UI_DEPLOYMENT_FAILED) now false
            (set_state_core did .SYNTHO_UI_DEPLOYMENT_IN_PROGRESS now false s))),
           dd, ff, lg ++ ["deploy-ray-and-syntho-stack.sh"]⟩) := by
  cases hb : (run_script (o.run "deploy-ray-and-syntho-stack.sh") false).succeeded <;>
    simp [start_deployment, set_state, get_deployments_state,
          update_deployments_state, invoke_script, hb]

/-- `initialize`-style record creation as a world equation, for a
readable state and an absent working directory. -/
theorem init_deployment_eq (did v now : String) (w : World)
    (s : DeploymentsState)
    (hgds : get_deployments_state w.stateFile = .ok s)
    (hmem : ¬(did ∈ w.dirs)) :
    init_deployment did v now w
      = .ok ⟨some (.parsed (init_core did v now s)), w.dirs ++ [did],
          w.isfile, w.log⟩ := by
  unfold init_deployment
  rw [hgds]
  simp [hmem, update_deployments_state]

/-- Inversion for `get_deployment_status` returning a found status. -/
theorem gds_ok_some (w : World) (did : String) (ds : DeploymentStatus)
    (h : get_deployment_status w did = .ok (some ds)) :
    w.dirs.contains did = true ∧ persisted_status w did = some ds := by
  unfold get_deployment_status at h
  by_cases hc : w.dirs.contains did = true
  · refine ⟨hc, ?_⟩
    rw [hc] at h
    simp only [Bool.not_true, Bool.false_eq_true, if_false] at h
    unfold persisted_status
    cases hgds : get_deployments_state w.stateFile with
    | error e => simp only [hgds] at h; cases h
    | ok s =>
      simp only [hgds] at h
      cases hfil : s.deployments.filter (fun d => d.id == did) with
      | nil => simp only [hfil] at h; cases h
      | cons d t =>
        simp only [hfil, Except.ok.injEq] at h
        simp [hfil, h]
  · have hc' : w.dirs.contains did = false := by simpa using hc
    rw [hc'] at h
    simp at h

/-- Inversion for `get_deployment_status` returning `None`: either the
working directory is absent, or a matching record exists whose status
string decodes to no known stage label. -/
theorem gds_ok_none (w : World) (did : String)
    (h : get_deployment_status w did = .ok none) :
    w.dirs.contains did = false ∨
    (w.dirs.contains did = true ∧ ∃ s d t,
      get_deployments_state w.stateFile = .ok s ∧
      s.deployments.filter (fun x => x.id == did) = d :: t ∧
      statusFromString d.status = none) := by
  by_cases hc : w.dirs.contains did = true
  · right
    refine ⟨hc, ?_⟩
    unfold get_deployment_status at h
    rw [hc] at h
    simp only [Bool.not_true, Bool.false_eq_true, if_false] at h
    cases hgds : get_deployments_state w.stateFile with
    | error e => simp only [hgds] at h; cases h
    | ok s =>
      simp only [hgds] at h
      cases hfil : s.deployments.filter (fun x => x.id == did) with
      | nil => simp only [hfil] at h; cases h
      | cons d t =>
        simp only [hfil, Except.ok.injEq] at h
        exact ⟨s, d, t, rfl, hfil, h⟩
  · left
    simpa using hc

/-- A present directory plus a decodable persisted status determine the
result of `get_deployment_status`. -/
theorem gds_of_persisted (w : World) (did : String) (ds : DeploymentStatus)
    (hc : w.dirs.contains did = true)
    (hp : persisted_status w did = some ds) :
    get_deployment_status w did = .ok (some ds) := by
  unfold persisted_status at hp
  unfold get_deployment_status
  rw [hc]
  simp only [Bool.not_true, Bool.false_eq_true, if_false]
  cases hgds : get_deployments_state w.stateFile with
  | error e => simp only [hgds] at hp; cases hp
  | ok s =>
    simp only [hgds] at hp
    cases hfil : s.deployments.filter (fun d => d.id == did) with
    | nil => simp only [hfil] at hp; cases hp
    | cons d t =>
      simp only [hfil] at hp
      simpa [hfil] using hp

/-- Appending an element makes `contains` true for it. -/
theorem contains_append_self (l : List String) (x : String) :
    (l ++ [x]).contains x = true := by simp

/-- Post-state of any `start` call that returns a result: the kubeconfig
argument was not a file (the hashing bug would otherwise have raised),
the returned id is the hash of the argument, the working directory
exists, the persisted status equals the returned status, and the call
succeeded exactly when that status is `completed`. -/
theorem start_ok_post (o : Oracle) (now v k : String) (w : World)
    (r : DeploymentResult) (w' : World)
    (h : start o now v k w = .ok (r, w')) :
    w'.isfile = w.isfile ∧ w.isfile k = false ∧
    r.deployment_id = MD5.md5hex k ∧
    w'.dirs.contains (MD5.md5hex k) = true ∧
    persisted_status w' (MD5.md5hex k) = some r.deployment_status ∧
    (r.succeeded = true ↔ r.deployment_status = DeploymentStatus.COMPLETED) := by
  unfold start at h
  by_cases hif : w.isfile k = true
  · simp [generate_deployment_id, hif] at h
  · have hif' : w.isfile k = false := by simpa using hif
    simp only [generate_deployment_id, hif', Bool.false_eq_true, if_false] at h
    cases hgs : get_deployment_status w (MD5.md5hex k) with
    | error e => simp only [hgs] at h; cases h
    | ok st =>
      simp only [hgs] at h
      cases st with
      | some ds =>
        obtain ⟨hc, hp⟩ := gds_ok_some w (MD5.md5hex k) ds hgs
        by_cases hcompl : (ds.get == DeploymentStatus.COMPLETED.get) = true
        · simp only [hcompl, if_true, Except.ok.injEq, Prod.mk.injEq] at h
          obtain ⟨hR, hW⟩ := h
          subst hR
          subst hW
          have hdc := eq_COMPLETED_of_get hcompl
          exact ⟨rfl, hif', rfl, hc, hp, by simp [hdc]⟩
        · simp only [hcompl, Bool.false_eq_true, if_false, Except.ok.injEq,
            Prod.mk.injEq] at h
          obtain ⟨hR, hW⟩ := h
          subst hR
          subst hW
          refine ⟨rfl, hif', rfl, hc, hp, ?_⟩
          simp only [Bool.false_eq_true, false_iff]
          intro hds
          rw [hds] at hcompl
          exact hcompl (by simp)
      | none =>
        rcases gds_ok_none w (MD5.md5hex k) hgs with hc | ⟨hc, s0, d0, t0, hgds0, hfil0, hsfs0⟩
        · -- fresh path
          have hmem' : ¬(MD5.md5hex k ∈ w.dirs) := by simpa using hc
          cases hgds : get_deployments_state w.stateFile with
          | error e =>
            have hini : init_deployment (MD5.md5hex k) v now w = .error e := by
              unfold init_deployment
              rw [hgds]
            simp only [hini] at h
            cases h
          | ok s =>
            rw [init_deployment_eq (MD5.md5hex k) v now w s hgds hmem'] at h
            cases hb₁ : (run_script (o.run "pre-requirements-kubernetes.sh") false).succeeded with
            | false =>
              simp only [prepare_env_eq, pre_req_eq, hb₁, Bool.not_false,
                Bool.false_eq_true, if_false, if_true, Except.ok.injEq,
                Prod.mk.injEq] at h
              obtain ⟨hR, hW⟩ := h
              subst hR
              subst hW
              refine ⟨rfl, hif', rfl,
                by simpa using contains_append_self w.dirs (MD5.md5hex k), ?_,
                by simp⟩
              exact persisted_status_final _ _ _ _ _ _ rfl
                (by simp [set_state_core_filter, set_cluster_core_filter, init_core_filter])
            | true =>
              cases hb₂ : (run_script (o.run "configuration-questions.sh") false).succeeded with
              | false =>
                simp only [prepare_env_eq, pre_req_eq, set_cluster_eq, config_eq,
                  hb₁, hb₂, Bool.not_false, Bool.not_true, Bool.false_eq_true,
                  if_false, if_true, Except.ok.injEq, Prod.mk.injEq] at h
                obtain ⟨hR, hW⟩ := h
                subst hR
                subst hW
                refine ⟨rfl, hif', rfl,
                  by simpa using contains_append_self w.dirs (MD5.md5hex k), ?_,
                  by simp⟩
                exact persisted_status_final _ _ _ _ _ _ rfl
                  (by simp [set_state_core_filter, set_cluster_core_filter, init_core_filter])
              | true =>
                cases hb₃ : (run_script (o.run "download-syntho-charts-release.sh") false).succeeded with
                | false =>
                  simp only [prepare_env_eq, pre_req_eq, set_cluster_eq,
                    config_eq, download_eq, hb₁, hb₂, hb₃, Bool.not_false,
                    Bool.not_true, Bool.false_eq_true, if_false, if_true,
                    Except.ok.injEq, Prod.mk.injEq] at h
                  obtain ⟨hR, hW⟩ := h
                  subst hR
                  subst hW
                  refine ⟨rfl, hif', rfl,
                    by simpa using contains_append_self w.dirs (MD5.md5hex k), ?_,
                    by simp⟩
                  exact persisted_status_final _ _ _ _ _ _ rfl
                    (by simp [set_state_core_filter, set_cluster_core_filter, init_core_filter])
                | true =>
                  cases hb₄ : (run_script (o.run "major-pre-deployment-operations.sh") false).succeeded with
                  | false =>
                    simp only [prepare_env_eq, pre_req_eq, set_cluster_eq,
                      config_eq, download_eq, major_eq, hb₁, hb₂, hb₃, hb₄,
                      Bool.not_false, Bool.not_true, Bool.false_eq_true,
                      if_false, if_true, Except.ok.injEq, Prod.mk.injEq] at h
                    obtain ⟨hR, hW⟩ := h
                    subst hR
                    subst hW
                    refine ⟨rfl, hif', rfl,
                      by simpa using contains_append_self w.dirs (MD5.md5hex k), ?_,
                      by simp⟩
                    exact persisted_status_final _ _ _ _ _ _ rfl
                      (by simp [set_state_core_filter, set_cluster_core_filter, init_core_filter])
                  | true =>
                    cases hb₅ : (run_script (o.run "deploy-ray-and-syntho-stack.sh") false).succeeded with
                    | false =>
                      simp only [prepare_env_eq, pre_req_eq, set_cluster_eq,
                        config_eq, download_eq, major_eq, deploy_eq, hb₁, hb₂,
                        hb₃, hb₄, hb₅, Bool.not_false, Bool.not_true,
                        Bool.false_eq_true, if_false, if_true, Except.ok.injEq,
                        Prod.mk.injEq] at h
                      obtain ⟨hR, hW⟩ := h
                      subst hR
                      subst hW
                      refine ⟨rfl, hif', rfl,
                        by simpa using contains_append_self w.dirs (MD5.md5hex k), ?_,
                        by simp⟩
                      exact persisted_status_final _ _ _ _ _ _ rfl
                        (by simp [set_state_core_filter, set_cluster_core_filter, init_core_filter])
                    | true =>
                      simp only [prepare_env_eq, pre_req_eq, set_cluster_eq,
                        config_eq, download_eq, major_eq, deploy_eq,
                        set_state_eq, hb₁, hb₂, hb₃, hb₄, hb₅, Bool.not_false,
                        Bool.not_true, Bool.false_eq_true, if_false, if_true,
                        Except.ok.injEq, Prod.mk.injEq] at h
                      obtain ⟨hR, hW⟩ := h
                      subst hR
                      subst hW
                      refine ⟨rfl, hif', rfl,
                        by simpa using contains_append_self w.dirs (MD5.md5hex k), ?_,
                        by simp⟩
                      exact persisted_status_final _ _ _ _ _ _ rfl
                        (by simp [set_state_core_filter, set_cluster_core_filter, init_core_filter])
        · -- directory present but undecodable status: creation raises
          have hmem2 : MD5.md5hex k ∈ w.dirs := by simpa using hc
          have hini : init_deployment (MD5.md5hex k) v now w
              = .error PyErr.fileExistsError := by
            unfold init_deployment
            rw [hgds0]
            simp [hmem2]
          simp only [hini] at h
          cases h

/-- The branch guards of the Cleanup Engine, evaluated. -/
theorem full_beq_na : (CleanUpLevel.FULL == CleanUpLevel.NA) = false := rfl

theorem full_beq_full : (CleanUpLevel.FULL == CleanUpLevel.FULL) = true := rfl

theorem dir_beq_na : (CleanUpLevel.DIR == CleanUpLevel.NA) = false := rfl

theorem dir_beq_full : (CleanUpLevel.DIR == CleanUpLevel.FULL) = false := rfl

/-! ## Claims -/

/-- C2: `generate_deployment_id` was specified to hash the file contents
when the argument names an existing readable file, and the argument
string itself otherwise, deterministically and without side effects.
The code delivers the string branch, but on the file branch it
evaluates the undefined name `file_path` (line 281) and raises
`NameError` instead of hashing anything: evaluating the embedded
function at a world where the argument is an existing file yields the
error. -/
theorem C2_identity_file_branch_raises :
    generate_deployment_id (fun p => p == "/etc/kubeconfig") "/etc/kubeconfig"
      = Except.error PyErr.nameError ∧
    generate_deployment_id (fun _ => false) "material"
      = Except.ok (MD5.md5hex "material") := by
  constructor
  · simp [generate_deployment_id]
  · rfl

/-- C4 counterexample: the claim says a read never raises for any file
content, but an existing state file that `yaml.safe_load` cannot parse
makes the load propagate the parse error. -/
theorem C4_counterexample :
    get_deployments_state (some StateContent.malformed)
      = Except.error PyErr.yamlError := rfl

/-- C4 (amended): a missing state file loads as the empty state; a
parseable file loads as its contents; a malformed file makes the read
raise the YAML parse error rather than returning the empty state. -/
theorem C4_state_load_amended :
    get_deployments_state none
      = Except.ok { active_deployment_id := none, deployments := [] } ∧
    (∀ s, get_deployments_state (some (StateContent.parsed s)) = Except.ok s) ∧
    get_deployments_state (some StateContent.malformed)
      = Except.error PyErr.yamlError :=
  ⟨rfl, fun _ => rfl, rfl⟩

/-- C5 counterexample: the claim says a non-zero exit with uncaptured
output yields `output` equal to the empty string, but the code hands
back `e.stderr`, which is Python `None` when output was not captured. -/
theorem C5_counterexample :
    (run_script (RunEvent.exit 2 "out" "boom") false).succeeded = false ∧
    (run_script (RunEvent.exit 2 "out" "boom") false).output = none ∧
    (run_script (RunEvent.exit 2 "out" "boom") false).output ≠ some "" := by
  refine ⟨by decide, by decide, by decide⟩

/-- C5 (amended): exit code zero yields success with the trimmed
captured stdout (empty when stdout is empty or not captured); a
non-zero exit yields failure with the captured stderr when captured
and `None` (not the empty string) when not; an operator interruption
yields failure with empty output and exit code fixed at 1. -/
theorem C5_run_script_classification (code : Int) (out err : String)
    (capture : Bool) :
    (code = 0 → run_script (.exit code out err) capture =
      { succeeded := true,
        output := some (if capture then (if out == "" then "" else out.trim)
                        else ""),
        exitcode := code }) ∧
    (code ≠ 0 → run_script (.exit code out err) capture =
      { succeeded := false, output := if capture then some err else none,
        exitcode := code }) ∧
    run_script .interrupt capture =
      { succeeded := false, output := some "", exitcode := 1 } := by
  refine ⟨?_, ?_, rfl⟩
  · rintro rfl
    cases capture <;> rfl
  · intro h
    have hb : (code == 0) = false := by simpa using h
    simp [run_script, hb]

/-- C5 witness: the amended classification evaluated at two concrete
outcomes. -/
theorem C5_witness :
    run_script (RunEvent.exit 0 "" "e") true
      = { succeeded := true, output := some "", exitcode := 0 } ∧
    run_script (RunEvent.exit 3 "o" "boom") false
      = { succeeded := false, output := none, exitcode := 3 } := by
  constructor
  · have h := (C5_run_script_classification 0 "" "e" true).1 rfl
    simpa using h
  · have h := (C5_run_script_classification 3 "o" "boom" false).2.1 (by decide)
    simpa using h

/-- C10: `run_script` is total — every oracle outcome produces a
result (nothing propagates to the caller), and every outcome other
than an ordinary process exit (interruption of the wait, or any spawn
or wait exception such as a missing or non-executable script file) is
converted into `SubprocessResult(succeeded=False, output="",
exitcode=1)`. -/
theorem C10_run_script_total (capture : Bool) :
    (∀ ev, ∃ res, run_script ev capture = res) ∧
    (∀ msg, run_script (RunEvent.exn msg) capture =
      { succeeded := false, output := some "", exitcode := 1 }) ∧
    run_script RunEvent.interrupt capture =
      { succeeded := false, output := some "", exitcode := 1 } :=
  ⟨fun _ => ⟨_, rfl⟩, fun _ => rfl, rfl⟩

/-- C3: a FULL-level cleanup whose external teardown script fails
returns `False` and leaves both the working directory set and the
state file exactly as they were: no deletion and no state-file write
happen. -/
theorem C3_cleanup_failure_atomic (o : Oracle) (did : String) (w : World)
    (hdir : w.dirs.contains did = true)
    (hfail : (run_script (o.run "cleanup-kubernetes.sh") false).succeeded = false) :
    ∃ w', cleanup_with_cleanup_level o did CleanUpLevel.FULL w
        = .ok (some false, w') ∧
      w'.dirs = w.dirs ∧ w'.stateFile = w.stateFile := by
  have hmem : did ∈ w.dirs := by simpa using hdir
  refine ⟨{ w with log := w.log ++ ["cleanup-kubernetes.sh"] }, ?_, rfl, rfl⟩
  simp [cleanup_with_cleanup_level, full_beq_na, full_beq_full, hmem,
        invoke_script, hfail]

/-- C3 witness: the failing teardown on a concrete two-deployment
machine. -/
theorem C3_witness :
    ∃ w', cleanup_with_cleanup_level oFail "a" CleanUpLevel.FULL wSample
        = .ok (some false, w') ∧
      w'.dirs = wSample.dirs ∧ w'.stateFile = wSample.stateFile :=
  C3_cleanup_failure_atomic oFail "a" wSample (by decide) (by decide)

/-- C9: the Cleanup Engine is a no-op — no directory deletion, no
record removal, no state-file write — when the level is
`not-applicable` (in particular for a `completed` deployment's level)
or when the deployment's working directory does not exist; `destroy`
likewise returns unchanged when the directory is missing. -/
theorem C9_cleanup_noop (o : Oracle) (did : String) (w : World) :
    cleanup_with_cleanup_level o did CleanUpLevel.NA w = .ok (none, w) ∧
    (w.dirs.contains did = false →
      ∀ lvl, cleanup_with_cleanup_level o did lvl w = .ok (none, w)) ∧
    (w.dirs.contains did = false → destroy o did w = .ok w) ∧
    cleanup o did DeploymentStatus.COMPLETED w = .ok w := by
  refine ⟨rfl, ?_, ?_, rfl⟩
  · intro h lvl
    have hnm : ¬(did ∈ w.dirs) := by simpa using h
    cases lvl
    · simp [cleanup_with_cleanup_level, full_beq_na, hnm]
    · simp [cleanup_with_cleanup_level, dir_beq_na, hnm]
    · rfl
  · intro h
    have hnm : ¬(did ∈ w.dirs) := by simpa using h
    simp [destroy, hnm]

/-- C9 witness: both no-op shapes on a concrete machine and a
directory-less identity. -/
theorem C9_witness :
    cleanup_with_cleanup_level oOk "zzz" CleanUpLevel.FULL wSample
      = .ok (none, wSample) ∧
    destroy oOk "zzz" wSample = .ok wSample :=
  ⟨(C9_cleanup_noop oOk "zzz" wSample).2.1 (by decide) CleanUpLevel.FULL,
   (C9_cleanup_noop oOk "zzz" wSample).2.2.1 (by decide)⟩

/-- C1: calling `start` a second time with the same connection material
and no intervening destroy re-executes nothing (the world, including
the ghost script log, is unchanged) and either returns the completed
success result both times, or returns the failure result "Deployment
remained unfinished" carrying exactly the status the first call left in
the state file. -/
theorem C1_start_idempotent (o o' : Oracle) (now now' v v' k : String)
    (w w₁ w₂ : World) (r₁ r₂ : DeploymentResult)
    (h₁ : start o now v k w = .ok (r₁, w₁))
    (h₂ : start o' now' v' k w₁ = .ok (r₂, w₂)) :
    w₂ = w₁ ∧ w₂.log = w₁.log ∧ r₂.deployment_id = r₁.deployment_id ∧
    ((r₁.succeeded = true ∧ r₂.succeeded = true ∧
      r₁.deployment_status = DeploymentStatus.COMPLETED ∧
      r₂.deployment_status = DeploymentStatus.COMPLETED) ∨
     (r₂.succeeded = false ∧
      r₂.error = some "Deployment remained unfinished" ∧
      persisted_status w₁ r₂.deployment_id = some r₂.deployment_status ∧
      r₂.deployment_status = r₁.deployment_status ∧
      r₂.deployment_status ≠ DeploymentStatus.COMPLETED)) := by
  obtain ⟨hisf, hif, hid, hcon, hpers, hiff⟩ := start_ok_post o now v k w r₁ w₁ h₁
  have hif₁ : w₁.isfile k = false := by rw [hisf]; exact hif
  have hgs := gds_of_persisted w₁ (MD5.md5hex k) r₁.deployment_status hcon hpers
  unfold start at h₂
  simp only [generate_deployment_id, hif₁, Bool.false_eq_true, if_false, hgs] at h₂
  by_cases hcompl :
      (r₁.deployment_status.get == DeploymentStatus.COMPLETED.get) = true
  · simp only [hcompl, if_true, Except.ok.injEq, Prod.mk.injEq] at h₂
    obtain ⟨hR, hW⟩ := h₂
    subst hR
    subst hW
    have hdc := eq_COMPLETED_of_get hcompl
    exact ⟨rfl, rfl, hid.symm, Or.inl ⟨hiff.mpr hdc, rfl, hdc, hdc⟩⟩
  · simp only [hcompl, Bool.false_eq_true, if_false, Except.ok.injEq,
      Prod.mk.injEq] at h₂
    obtain ⟨hR, hW⟩ := h₂
    subst hR
    subst hW
    refine ⟨rfl, rfl, hid.symm, Or.inr ⟨rfl, rfl, hpers, rfl, ?_⟩⟩
    intro hds
    rw [hds] at hcompl
    exact hcompl (by simp)

/-- C1 witness: on a machine holding a completed record for the
identity of the empty connection string, two successive `start` calls
short-circuit, and the theorem yields the completed-both-times
disjunct with the world untouched. -/
theorem C1_witness :
    wDone = wDone ∧ wDone.log = wDone.log ∧
    rDone.deployment_id = rDone.deployment_id ∧
    ((rDone.succeeded = true ∧ rDone.succeeded = true ∧
      rDone.deployment_status = DeploymentStatus.COMPLETED ∧
      rDone.deployment_status = DeploymentStatus.COMPLETED) ∨
     (rDone.succeeded = false ∧
      rDone.error = some "Deployment remained unfinished" ∧
      persisted_status wDone rDone.deployment_id
        = some rDone.deployment_status ∧
      rDone.deployment_status = rDone.deployment_status ∧
      rDone.deployment_status ≠ DeploymentStatus.COMPLETED)) :=
  C1_start_idempotent oOk oFail "t2" "t3" "1.0" "1.0" "" wDone wDone wDone
    rDone rDone (by rfl) (by rfl)

/-- C6: when a fresh `start` run stops at a stage failure, the status
left in the state file is exactly the failed variant of the stage whose
script failed — the pre-requirement check maps to
`pre-req-check-failed`, the three pre-deployment operations to
`pre-deployment-operations-failed`, the final stack deployment to
`syntho-ui-deployment-failed` — and the persisted record's
`finished_at` is still null. -/
theorem C6_failure_persists_failed_variant (o : Oracle) (now v k : String)
    (w : World) (s : DeploymentsState) (r : DeploymentResult) (w' : World)
    (hs : get_deployments_state w.stateFile = .ok s)
    (hfresh : s.deployments.filter (fun d => d.id == MD5.md5hex k) = [])
    (h : start o now v k w = .ok (r, w'))
    (hfail : r.succeeded = false) :
    persisted_status w' (MD5.md5hex k) = some r.deployment_status ∧
    (r.deployment_status = DeploymentStatus.PRE_REQ_CHECK_FAILED ∨
     r.deployment_status = DeploymentStatus.PRE_DEPLOYMENT_OPERATIONS_FAILED ∨
     r.deployment_status = DeploymentStatus.SYNTHO_UI_DEPLOYMENT_FAILED) ∧
    (persisted_record w' (MD5.md5hex k)).map (fun rec => rec.status)
      = some r.deployment_status.get ∧
    (persisted_record w' (MD5.md5hex k)).map (fun rec => rec.finished_at)
      = some none ∧
    ((run_script (o.run "pre-requirements-kubernetes.sh") false).succeeded = false →
      r.deployment_status = DeploymentStatus.PRE_REQ_CHECK_FAILED) ∧
    ((run_script (o.run "pre-requirements-kubernetes.sh") false).succeeded = true →
     (run_script (o.run "configuration-questions.sh") false).succeeded = false →
      r.deployment_status = DeploymentStatus.PRE_DEPLOYMENT_OPERATIONS_FAILED) ∧
    ((run_script (o.run "pre-requirements-kubernetes.sh") false).succeeded = true →
     (run_script (o.run "configuration-questions.sh") false).succeeded = true →
     (run_script (o.run "download-syntho-charts-release.sh") false).succeeded = false →
      r.deployment_status = DeploymentStatus.PRE_DEPLOYMENT_OPERATIONS_FAILED) ∧
    ((run_script (o.run "pre-requirements-kubernetes.sh") false).succeeded = true →
     (run_script (o.run "configuration-questions.sh") false).succeeded = true →
     (run_script (o.run "download-syntho-charts-release.sh") false).succeeded = true →
     (run_script (o.run "major-pre-deployment-operations.sh") false).succeeded = false →
      r.deployment_status = DeploymentStatus.PRE_DEPLOYMENT_OPERATIONS_FAILED) ∧
    ((run_script (o.run "pre-requirements-kubernetes.sh") false).succeeded = true →
     (run_script (o.run "configuration-questions.sh") false).succeeded = true →
     (run_script (o.run "download-syntho-charts-release.sh") false).succeeded = true →
     (run_script (o.run "major-pre-deployment-operations.sh") false).succeeded = true →
     (run_script (o.run "deploy-ray-and-syntho-stack.sh") false).succeeded = false →
      r.deployment_status = DeploymentStatus.SYNTHO_UI_DEPLOYMENT_FAILED) := by
  obtain ⟨hisf, hif', hid, hcon, hpers, hiff⟩ := start_ok_post o now v k w r w' h
  refine ⟨hpers, ?_⟩
  unfold start at h
  simp only [generate_deployment_id, hif', Bool.false_eq_true, if_false] at h
  cases hgs : get_deployment_status w (MD5.md5hex k) with
  | error e => simp only [hgs] at h; cases h
  | ok st =>
    simp only [hgs] at h
    cases st with
    | some ds =>
      obtain ⟨hc2, hp2⟩ := gds_ok_some w (MD5.md5hex k) ds hgs
      unfold persisted_status at hp2
      simp only [hs, hfresh] at hp2
      cases hp2
    | none =>
      rcases gds_ok_none w (MD5.md5hex k) hgs with hc | ⟨hc, s0, d0, t0, hgds0, hfil0, hsfs0⟩
      · have hmem' : ¬(MD5.md5hex k ∈ w.dirs) := by simpa using hc
        rw [init_deployment_eq (MD5.md5hex k) v now w s hs hmem'] at h
        cases hb₁ : (run_script (o.run "pre-requirements-kubernetes.sh") false).succeeded with
        | false =>
          simp only [prepare_env_eq, pre_req_eq, hb₁, Bool.not_false,
            Bool.false_eq_true, if_false, if_true, Except.ok.injEq,
            Prod.mk.injEq] at h
          obtain ⟨hR, hW⟩ := h
          subst hR
          subst hW
          refine ⟨by simp, ?_, ?_, fun _ => rfl, ?_, ?_, ?_, ?_⟩ <;>
            first
              | (intro h1 <;> rw [hb₁] at h1 <;> cases h1)
              | simp [persisted_record, get_deployments_state,
                  set_state_core_filter, set_cluster_core_filter,
                  init_core_filter, hfresh, upd_status, init_record,
                  DeploymentStatus.get]
        | true =>
          cases hb₂ : (run_script (o.run "configuration-questions.sh") false).succeeded with
          | false =>
            simp only [prepare_env_eq, pre_req_eq, set_cluster_eq, config_eq,
              hb₁, hb₂, Bool.not_false, Bool.not_true, Bool.false_eq_true,
              if_false, if_true, Except.ok.injEq, Prod.mk.injEq] at h
            obtain ⟨hR, hW⟩ := h
            subst hR
            subst hW
            refine ⟨by simp, ?_, ?_, ?_, fun _ _ => rfl, ?_, ?_, ?_⟩ <;>
              first
                | (intro h1 h2 <;> rw [hb₂] at h2 <;> cases h2)
                | (intro h1 <;> rw [hb₁] at h1 <;> cases h1)
                | simp [persisted_record, get_deployments_state,
                    set_state_core_filter, set_cluster_core_filter,
                    init_core_filter, hfresh, upd_status, init_record,
                    DeploymentStatus.get]
          | true =>
            cases hb₃ : (run_script (o.run "download-syntho-charts-release.sh") false).succeeded with
            | false =>
              simp only [prepare_env_eq, pre_req_eq, set_cluster_eq, config_eq,
                download_eq, hb₁, hb₂, hb₃, Bool.not_false, Bool.not_true,
                Bool.false_eq_true, if_false, if_true, Except.ok.injEq,
                Prod.mk.injEq] at h
              obtain ⟨hR, hW⟩ := h
              subst hR
              subst hW
              refine ⟨by simp, ?_, ?_, ?_, ?_, fun _ _ _ => rfl, ?_, ?_⟩ <;>
                first
                  | (intro h1 h2 h3 <;> rw [hb₃] at h3 <;> cases h3)
                  | (intro h1 h2 <;> rw [hb₂] at h2 <;> cases h2)
                  | (intro h1 <;> rw [hb₁] at h1 <;> cases h1)
                  | simp [persisted_record, get_deployments_state,
                      set_state_core_filter, set_cluster_core_filter,
                      init_core_filter, hfresh, upd_status, init_record,
                      DeploymentStatus.get]
            | true =>
              cases hb₄ : (run_script (o.run "major-pre-deployment-operations.sh") false).succeeded with
              | false =>
                simp only [prepare_env_eq, pre_req_eq, set_cluster_eq,
                  config_eq, download_eq, major_eq, hb₁, hb₂, hb₃, hb₄,
                  Bool.not_false, Bool.not_true, Bool.false_eq_true, if_false,
                  if_true, Except.ok.injEq, Prod.mk.injEq] at h
                obtain ⟨hR, hW⟩ := h
                subst hR
                subst hW
                refine ⟨by simp, ?_, ?_, ?_, ?_, ?_, fun _ _ _ _ => rfl, ?_⟩ <;>
                  first
                    | (intro h1 h2 h3 h4 <;> rw [hb₄] at h4 <;> cases h4)
                    | (intro h1 h2 h3 <;> rw [hb₃] at h3 <;> cases h3)
                    | (intro h1 h2 <;> rw [hb₂] at h2 <;> cases h2)
                    | (intro h1 <;> rw [hb₁] at h1 <;> cases h1)
                    | simp [persisted_record, get_deployments_state,
                        set_state_core_filter, set_cluster_core_filter,
                        init_core_filter, hfresh, upd_status, init_record,
                        DeploymentStatus.get]
              | true =>
                cases hb₅ : (run_script (o.run "deploy-ray-and-syntho-stack.sh") false).succeeded with
                | false =>
                  simp only [prepare_env_eq, pre_req_eq, set_cluster_eq,
                    config_eq, download_eq, major_eq, deploy_eq, hb₁, hb₂, hb₃,
                    hb₄, hb₅, Bool.not_false, Bool.not_true, Bool.false_eq_true,
                    if_false, if_true, Except.ok.injEq, Prod.mk.injEq] at h
                  obtain ⟨hR, hW⟩ := h
                  subst hR
                  subst hW
                  refine ⟨by simp, ?_, ?_, ?_, ?_, ?_, ?_, fun _ _ _ _ _ => rfl⟩ <;>
                    first
                      | (intro h1 h2 h3 h4 h5 <;> rw [hb₅] at h5 <;> cases h5)
                      | (intro h1 h2 h3 h4 <;> rw [hb₄] at h4 <;> cases h4)
                      | (intro h1 h2 h3 <;> rw [hb₃] at h3 <;> cases h3)
                      | (intro h1 h2 <;> rw [hb₂] at h2 <;> cases h2)
                      | (intro h1 <;> rw [hb₁] at h1 <;> cases h1)
                      | simp [persisted_record, get_deployments_state,
                          set_state_core_filter, set_cluster_core_filter,
                          init_core_filter, hfresh, upd_status, init_record,
                          DeploymentStatus.get]
                | true =>
                  simp only [prepare_env_eq, pre_req_eq, set_cluster_eq,
                    config_eq, download_eq, major_eq, deploy_eq, set_state_eq,
                    hb₁, hb₂, hb₃, hb₄, hb₅, Bool.not_false, Bool.not_true,
                    Bool.false_eq_true, if_false, if_true, Except.ok.injEq,
                    Prod.mk.injEq] at h
                  obtain ⟨hR, hW⟩ := h
                  rw [← hR] at hfail
                  simp at hfail
      · have hmem2 : MD5.md5hex k ∈ w.dirs := by simpa using hc
        have hini : init_deployment (MD5.md5hex k) v now w
            = .error PyErr.fileExistsError := by
          unfold init_deployment
          rw [hgds0]
          simp [hmem2]
        simp only [hini] at h
        cases h

/-- C6 witness: a fresh run on the empty machine where every script
fails stops at the pre-requirement check; the persisted record carries
`pre-req-check-failed` and a null `finished_at`. -/
theorem C6_witness :
    persisted_status wPreReqFail (MD5.md5hex "")
      = some rPreReqFail.deployment_status ∧
    (rPreReqFail.deployment_status = DeploymentStatus.PRE_REQ_CHECK_FAILED ∨
     rPreReqFail.deployment_status
       = DeploymentStatus.PRE_DEPLOYMENT_OPERATIONS_FAILED ∨
     rPreReqFail.deployment_status
       = DeploymentStatus.SYNTHO_UI_DEPLOYMENT_FAILED) ∧
    (persisted_record wPreReqFail (MD5.md5hex "")).map (fun rec => rec.status)
      = some rPreReqFail.deployment_status.get ∧
    (persisted_record wPreReqFail (MD5.md5hex "")).map (fun rec => rec.finished_at)
      = some none ∧
    ((run_script (oFail.run "pre-requirements-kubernetes.sh") false).succeeded = false →
      rPreReqFail.deployment_status = DeploymentStatus.PRE_REQ_CHECK_FAILED) ∧
    ((run_script (oFail.run "pre-requirements-kubernetes.sh") false).succeeded = true →
     (run_script (oFail.run "configuration-questions.sh") false).succeeded = false →
      rPreReqFail.deployment_status
        = DeploymentStatus.PRE_DEPLOYMENT_OPERATIONS_FAILED) ∧
    ((run_script (oFail.run "pre-requirements-kubernetes.sh") false).succeeded = true →
     (run_script (oFail.run "configuration-questions.sh") false).succeeded = true →
     (run_script (oFail.run "download-syntho-charts-release.sh") false).succeeded = false →
      rPreReqFail.deployment_status
        = DeploymentStatus.PRE_DEPLOYMENT_OPERATIONS_FAILED) ∧
    ((run_script (oFail.run "pre-requirements-kubernetes.sh") false).succeeded = true →
     (run_script (oFail.run "configuration-questions.sh") false).succeeded = true →
     (run_script (oFail.run "download-syntho-charts-release.sh") false).succeeded = true →
     (run_script (oFail.run "major-pre-deployment-operations.sh") false).succeeded = false →
      rPreReqFail.deployment_status
        = DeploymentStatus.PRE_DEPLOYMENT_OPERATIONS_FAILED) ∧
    ((run_script (oFail.run "pre-requirements-kubernetes.sh") false).succeeded = true →
     (run_script (oFail.run "configuration-questions.sh") false).succeeded = true →
     (run_script (oFail.run "download-syntho-charts-release.sh") false).succeeded = true →
     (run_script (oFail.run "major-pre-deployment-operations.sh") false).succeeded = true →
     (run_script (oFail.run "deploy-ray-and-syntho-stack.sh") false).succeeded = false →
      rPreReqFail.deployment_status
        = DeploymentStatus.SYNTHO_UI_DEPLOYMENT_FAILED) :=
  C6_failure_persists_failed_variant oFail "t" "1.0" "" wEmpty
    { active_deployment_id := none, deployments := [] } rPreReqFail wPreReqFail
    rfl rfl (by rfl) rfl

/-- C8: a successful cleanup (FULL level with succeeding teardown
script, or DIR level) deletes the working directory, removes every
record with the deployment's id, and sets `active_deployment_id` to
the id of the last remaining record in sequence order — `None` when no
records remain. -/
theorem C8_cleanup_success (o : Oracle) (did : String) (w : World)
    (s : DeploymentsState)
    (hdir : w.dirs.contains did = true)
    (hs : w.stateFile = some (.parsed s))
    (hok : (run_script (o.run "cleanup-kubernetes.sh") false).succeeded = true) :
    cleanup_with_cleanup_level o did CleanUpLevel.FULL w
      = .ok (some true,
          { stateFile := some (.parsed
              { active_deployment_id := cleanup_active did s,
                deployments := cleanup_kept did s }),
            dirs := w.dirs.filter (fun d => !(d == did)),
            isfile := w.isfile,
            log := w.log ++ ["cleanup-kubernetes.sh"] }) ∧
    cleanup_with_cleanup_level o did CleanUpLevel.DIR w
      = .ok (some true,
          { stateFile := some (.parsed
              { active_deployment_id := cleanup_active did s,
                deployments := cleanup_kept did s }),
            dirs := w.dirs.filter (fun d => !(d == did)),
            isfile := w.isfile,
            log := w.log }) ∧
    (∀ d ∈ cleanup_kept did s, ¬(d.id = did)) ∧
    (cleanup_kept did s = [] → cleanup_active did s = none) ∧
    (∀ d, (cleanup_kept did s).getLast? = some d →
      cleanup_active did s = some d.id) := by
  have hmem : did ∈ w.dirs := by simpa using hdir
  refine ⟨?_, ?_, ?_, ?_, ?_⟩
  · simp [cleanup_with_cleanup_level, full_beq_na, full_beq_full, hmem,
          invoke_script, hok, cleanup_finish, get_deployments_state, hs,
          update_deployments_state]
  · simp [cleanup_with_cleanup_level, dir_beq_na, dir_beq_full, hmem,
          cleanup_finish, get_deployments_state, hs, update_deployments_state]
  · intro d hd
    have h := (List.mem_filter.mp hd).2
    simpa using h
  · intro h
    simp [cleanup_active, h]
  · intro d hd
    simp [cleanup_active, hd]

/-- C8 witness: full cleanup of deployment `b` on the two-deployment
machine keeps `a` and re-points the active id at it; full cleanup of
the only remaining deployment empties the state. -/
theorem C8_witness :
    cleanup_with_cleanup_level oOk "b" CleanUpLevel.FULL wSample
      = .ok (some true,
          { stateFile := some (.parsed
              { active_deployment_id := some "a", deployments := [recA] }),
            dirs := ["a"],
            isfile := wSample.isfile,
            log := ["cleanup-kubernetes.sh"] }) := by
  have h := (C8_cleanup_success oOk "b" wSample sampleState (by decide) rfl
    (by decide)).1
  rw [h]
  rfl

/-- Mapping an id-preserving function does not change which ids occur. -/
theorem any_id_map (l : List Deployment) (f : Deployment → Deployment)
    (hf : ∀ d, (f d).id = d.id) (i : String) :
    (l.map f).any (fun d => d.id == i) = l.any (fun d => d.id == i) := by
  induction l with
  | nil => rfl
  | cons d t ih => simp [hf d, ih]

/-- `set_state` preserves the active-id invariant. -/
theorem state_inv_set_state_core (i : String) (σ : DeploymentStatus)
    (now : String) (ic : Bool) (s : DeploymentsState)
    (h : state_inv s = true) :
    state_inv (set_state_core i σ now ic s) = true := by
  unfold state_inv at h ⊢
  cases hA : s.active_deployment_id with
  | none => simp [set_state_core, hA]
  | some j =>
    rw [hA] at h
    simp only [List.any_eq_true, beq_iff_eq] at h
    simp [set_state_core, hA]
    obtain ⟨x, hx, hxj⟩ := h
    exact ⟨x, hx, by split <;> simpa [upd_status] using hxj⟩

/-- `set_cluster_name` preserves the active-id invariant. -/
theorem state_inv_set_cluster_core (i : String) (out : Option String)
    (s : DeploymentsState) (h : state_inv s = true) :
    state_inv (set_cluster_core i out s) = true := by
  unfold state_inv at h ⊢
  cases hA : s.active_deployment_id with
  | none => simp [set_cluster_core, hA]
  | some j =>
    rw [hA] at h
    simp only [List.any_eq_true, beq_iff_eq] at h
    simp [set_cluster_core, hA]
    obtain ⟨x, hx, hxj⟩ := h
    exact ⟨x, hx, by split <;> simpa using hxj⟩

/-- Record creation establishes the active-id invariant: the new active
id names the record just appended. -/
theorem state_inv_init_core (i v now : String) (s : DeploymentsState) :
    state_inv (init_core i v now s) = true := by
  simp [state_inv, init_core, init_record]

/-- The state written by a successful cleanup satisfies the active-id
invariant: the recomputed active id is the last kept record's id. -/
theorem state_inv_cleanup (did : String) (s : DeploymentsState) :
    state_inv { active_deployment_id := cleanup_active did s,
                deployments := cleanup_kept did s } = true := by
  unfold state_inv cleanup_active
  cases hL : (cleanup_kept did s).getLast? with
  | none => rfl
  | some d =>
    obtain ⟨ys, hys⟩ := List.getLast?_eq_some_iff.mp hL
    simp [hys]

/-- C7: every state-file write — record creation, stage transition,
cluster-name update, cleanup/record removal — preserves the invariant
that `active_deployment_id`, when non-null, is the id of a record
present in the `deployments` sequence. -/
theorem C7_active_id_invariant (w : World) :
    (∀ did v now w', init_deployment did v now w = Except.ok w' →
      world_inv w') ∧
    (∀ did σ ic now w', world_inv w →
      set_state did σ ic now w = Except.ok w' → world_inv w') ∧
    (∀ o did w', world_inv w →
      set_cluster_name o did w = Except.ok w' → world_inv w') ∧
    (∀ o did lvl r w', world_inv w →
      cleanup_with_cleanup_level o did lvl w = Except.ok (r, w') →
      world_inv w') := by
  have hload : ∀ s, get_deployments_state w.stateFile = Except.ok s →
      world_inv w → state_inv s = true := by
    intro s hgds hinv
    cases hsf : w.stateFile with
    | none =>
      rw [hsf] at hgds
      simp [get_deployments_state] at hgds
      rw [← hgds]
      rfl
    | some c =>
      cases c with
      | parsed s0 =>
        rw [hsf] at hgds
        simp [get_deployments_state] at hgds
        have h0 := hinv s0 hsf
        rwa [hgds] at h0
      | malformed =>
        rw [hsf] at hgds
        simp [get_deployments_state] at hgds
  have hupd : ∀ (s0 : DeploymentsState) (w0 : World),
      state_inv s0 = true → world_inv (update_deployments_state s0 w0) := by
    intro s0 w0 h0 s' hs'
    simp [update_deployments_state] at hs'
    rw [← hs']
    exact h0
  refine ⟨?_, ?_, ?_, ?_⟩
  · intro did v now w' h
    unfold init_deployment at h
    cases hgds : get_deployments_state w.stateFile with
    | error e => rw [hgds] at h; cases h
    | ok s =>
      rw [hgds] at h
      by_cases hc : did ∈ w.dirs
      · simp [hc] at h
      · simp [hc] at h
        rw [← h]
        exact hupd _ _ (state_inv_init_core did v now s)
  · intro did σ ic now w' hinv h
    unfold set_state at h
    cases hgds : get_deployments_state w.stateFile with
    | error e => rw [hgds] at h; cases h
    | ok s =>
      rw [hgds] at h
      simp only [Except.ok.injEq] at h
      rw [← h]
      exact hupd _ _ (state_inv_set_state_core did σ now ic s (hload s hgds hinv))
  · intro o did w' hinv h
    unfold set_cluster_name at h
    simp only [invoke_script] at h
    cases hgds : get_deployments_state w.stateFile with
    | error e => simp [hgds] at h
    | ok s =>
      simp only [hgds, Except.ok.injEq] at h
      rw [← h]
      have h0 := state_inv_set_cluster_core did
        (run_script (o.run "get-k8s-cluster-context-name.sh") true).output s
        (hload s hgds hinv)
      intro s' hs'
      simp [update_deployments_state] at hs'
      rw [← hs']
      exact h0
  · intro o did lvl r w' hinv h
    have hfin : ∀ w0 : World, w0.stateFile = w.stateFile →
        cleanup_finish did w0 = Except.ok (r, w') → world_inv w' := by
      intro w0 hw0 hf
      unfold cleanup_finish at hf
      rw [hw0] at hf
      dsimp only at hf
      cases hgds : get_deployments_state w.stateFile with
      | error e => rw [hgds] at hf; cases hf
      | ok s =>
        rw [hgds] at hf
        simp only [Except.ok.injEq, Prod.mk.injEq] at hf
        rw [← hf.2]
        exact hupd _ _ (state_inv_cleanup did s)
    unfold cleanup_with_cleanup_level at h
    cases lvl with
    | NA =>
      simp at h
      obtain ⟨-, h2⟩ := h
      subst h2
      exact hinv
    | FULL =>
      by_cases hmem : did ∈ w.dirs
      · simp [hmem, full_beq_na, full_beq_full, invoke_script] at h
        by_cases hok :
            (run_script (o.run "cleanup-kubernetes.sh") false).succeeded = true
        · simp [hok] at h
          exact hfin { w with log := w.log ++ ["cleanup-kubernetes.sh"] } rfl h
        · have hok' :
              (run_script (o.run "cleanup-kubernetes.sh") false).succeeded
                = false := by
            cases hb : (run_script (o.run "cleanup-kubernetes.sh") false).succeeded
            · rfl
            · exact absurd hb hok
          simp [hok'] at h
          obtain ⟨-, h2⟩ := h
          subst h2
          intro s' hs'
          exact hinv s' hs'
      · simp [hmem, full_beq_na] at h
        obtain ⟨-, h2⟩ := h
        subst h2
        exact hinv
    | DIR =>
      by_cases hmem : did ∈ w.dirs
      · simp [hmem, dir_beq_na, dir_beq_full] at h
        exact hfin w rfl h
      · simp [hmem, dir_beq_na] at h
        obtain ⟨-, h2⟩ := h
        subst h2
        exact hinv

/-- C7 witness: the invariant holds after creating a record on the
fresh machine, via the preservation theorem applied to
`init_deployment`. -/
theorem C7_witness :
    world_inv ⟨some (StateContent.parsed
        ⟨some "d", [init_record "d" "1.0" "t"]⟩), ["d"], wEmpty.isfile, []⟩ :=
  (C7_active_id_invariant wEmpty).1 "d" "1.0" "t" _ (by rfl)

end K8s
